import Mathlib

/-!
A shallow embedding of the `botnet-agg` Cloudflare worker (`src/worker.js`).

The worker filters inbound requests against a TTL-bound block ledger, two
fixed-window counters and a heuristic bot score, all held in a key-value
store (`env.BOTNET_KV`), and exposes an authenticated admin API under a
configurable path marker.

Modelling conventions:
* JavaScript strings are Lean `String`s; the handful of string operations the
  worker uses (`trim`, `toLowerCase`, `split`, `includes`, `startsWith`,
  `slice`) are re-implemented over `List Char` so that everything reduces.
* `Date.now()` is a single `nowMs : Nat` parameter per request; the ISO
  timestamp `new Date().toISOString()` stored in block records is modelled as
  that millisecond value.
* The key-value store is a list of key/entry pairs with absolute expiry
  times, mirroring the repository's `MockKV`; reads of expired entries
  return nothing.  Store calls may raise: a `KVState` carries a schedule
  `failAt` of operation indices at which the underlying store throws, and
  every operation threads an `Except Unit` result, so the worker's
  `try`/`catch` is modelled faithfully.
* KV values are restricted to the shapes the worker itself writes:
  JSON-serialised block records and stringified integers.
-/

/-- Characters of a hexadecimal digit, as matched by `/[0-9a-fA-F]/`. -/
def isHexChar (c : Char) : Bool :=
  c.isDigit || ('a' ≤ c && c ≤ 'f') || ('A' ≤ c && c ≤ 'F')

/-- `needle.isPrefixOf hay || recurse`: JS `hay.includes(needle)` over char lists. -/
def containsSub (needle : List Char) : List Char → Bool
  | [] => needle.isEmpty
  | c :: t => needle.isPrefixOf (c :: t) || containsSub needle t

/-- JS `hay.includes(needle)` (substring test). -/
def jsIncludes (hay needle : String) : Bool :=
  containsSub needle.toList hay.toList

/-- JS `s.startsWith(p)`. -/
def jsStartsWith (s p : String) : Bool :=
  p.toList.isPrefixOf s.toList

/-- JS `s.trim()` (ASCII whitespace at both ends). -/
def jsTrim (s : String) : String :=
  String.mk (((s.toList.dropWhile Char.isWhitespace).reverse.dropWhile Char.isWhitespace).reverse)

/-- JS `s.toLowerCase()` restricted to ASCII, as the worker's inputs are. -/
def jsToLower (s : String) : String :=
  String.mk (s.toList.map Char.toLower)

/-- JS `s.split(sep)` over char lists. -/
def splitCharList (sep : Char) : List Char → List (List Char)
  | [] => [[]]
  | c :: cs =>
    let rest := splitCharList sep cs
    if c == sep then [] :: rest
    else
      match rest with
      | [] => [[c]]
      | h :: t => (c :: h) :: t

/-- JS `s.split(sep)` for a one-character separator. -/
def jsSplit (s : String) (sep : Char) : List String :=
  (splitCharList sep s.toList).map String.mk

/-- Digits of a decimal numeral folded into a `Nat`. -/
def natOfDigits (ds : List Char) : Nat :=
  ds.foldl (fun acc c => acc * 10 + (c.toNat - 48)) 0

/-- JS `Number.parseInt(s, 10)`: optional whitespace and sign, then the maximal
leading run of decimal digits; `none` models `NaN`. -/
def parseIntBase10 (s : String) : Option Int :=
  let cs := s.toList.dropWhile Char.isWhitespace
  match cs with
  | '-' :: t =>
    let ds := t.takeWhile Char.isDigit
    if ds.isEmpty then none else some (-(natOfDigits ds : Int))
  | '+' :: t =>
    let ds := t.takeWhile Char.isDigit
    if ds.isEmpty then none else some (natOfDigits ds : Int)
  | t =>
    let ds := t.takeWhile Char.isDigit
    if ds.isEmpty then none else some (natOfDigits ds : Int)

/-- A JSON scalar as it appears in an admin request body. -/
inductive JsVal where
  | str (s : String)
  | num (n : Int)
  | boolean (b : Bool)
  | null
  deriving DecidableEq, Repr

/-- The result of `JSON.parse` on an admin request body: an object with the
fields the worker inspects, a truthy non-object value, or a falsy value
(`null`, `false`, `0`, `""`). -/
inductive ParsedBody where
  | obj (ip reasonField ttlSecondsField : Option JsVal)
  | nonObj
  | jsNull
  deriving DecidableEq, Repr

/-- The raw body of a request: absent (so `request.json()` rejects),
syntactically malformed JSON (rejects as well), or parsed JSON. -/
inductive RawBody where
  | absent
  | malformed
  | parsed (v : ParsedBody)
  deriving DecidableEq, Repr

/-- An inbound HTTP request, with the headers the worker reads. -/
structure Request where
  method : String
  pathname : String
  searchIp : Option String
  cfConnectingIp : Option String
  userAgent : Option String
  authorization : Option String
  body : RawBody
  deriving DecidableEq, Repr

/-- A block record (`JSON.stringify`-ed into the store).  Optional fields model
the reason-specific fields of the JS object; `blockedAt` stands for the ISO
timestamp of the block time. -/
structure BlockRecord where
  reason : String
  blockedAt : Nat
  windowSeconds : Option Nat := none
  maxRequests : Option Nat := none
  observedCount : Option Int := none
  path : Option String := none
  score : Option Int := none
  blockThreshold : Option Nat := none
  scoreDelta : Option Nat := none
  signals : Option (List String) := none
  actor : Option String := none
  deriving DecidableEq, Repr

/-- A value in the key-value store, restricted to the shapes the worker
writes: a JSON-serialised block record, or `String(n)` for a counter or a
bot score. -/
inductive KVValue where
  | record (r : BlockRecord)
  | count (n : Int)
  deriving DecidableEq, Repr

/-- `JSON.parse` of a stored block-ledger value: a record parses back to the
record, a stringified integer parses to that number. -/
inductive StoredDetails where
  | record (r : BlockRecord)
  | num (n : Int)
  deriving DecidableEq, Repr

/-- JS truthiness of a parsed stored value (`if (blocked)` / `Boolean(details)`). -/
def jsTruthyDetails : StoredDetails → Bool
  | .record _ => true
  | .num n => n ≠ 0

/-- One store entry: value plus absolute expiry time in milliseconds. -/
structure KVEntry where
  value : KVValue
  expiresAtMs : Option Nat
  deriving DecidableEq, Repr

/-- The store: entries, plus a fault schedule — the store call whose running
index is listed in `failAt` throws.  `opCount` is the running index. -/
structure KVState where
  entries : List (String × KVEntry)
  failAt : List Nat
  opCount : Nat
  deriving DecidableEq, Repr

def findEntry (l : List (String × KVEntry)) (k : String) : Option KVEntry :=
  match l with
  | [] => none
  | (k', e) :: t => if k' = k then some e else findEntry t k

def removeKey : List (String × KVEntry) → String → List (String × KVEntry)
  | [], _ => []
  | p :: t, k => if p.1 = k then removeKey t k else p :: removeKey t k

def putEntry (l : List (String × KVEntry)) (k : String) (e : KVEntry) : List (String × KVEntry) :=
  (k, e) :: removeKey l k

/-- The live value at a key: entries past their expiry read as absent. -/
def liveLookup (s : KVState) (nowMs : Nat) (key : String) : Option KVValue :=
  match findEntry s.entries key with
  | none => none
  | some e =>
    match e.expiresAtMs with
    | none => some e.value
    | some t => if nowMs ≥ t then none else some e.value

/-- Advance the store-operation counter. -/
def tick (s : KVState) : KVState :=
  { s with opCount := s.opCount + 1 }

/-- `kv.get(key)`: throws if scheduled, else returns the live value. -/
def kvGet (s : KVState) (nowMs : Nat) (key : String) : Except Unit (Option KVValue) × KVState :=
  if s.failAt.contains s.opCount then (.error (), tick s)
  else (.ok (liveLookup s nowMs key), tick s)

/-- `kv.put(key, value, {expirationTtl})`: throws if scheduled, else overwrites
the entry with expiry `now + ttl*1000` (the `MockKV` semantics). -/
def kvPut (s : KVState) (nowMs : Nat) (key : String) (v : KVValue) (ttlSeconds : Nat) :
    Except Unit Unit × KVState :=
  if s.failAt.contains s.opCount then (.error (), tick s)
  else (.ok (), { s with opCount := s.opCount + 1,
                         entries := putEntry s.entries key ⟨v, some (nowMs + ttlSeconds * 1000)⟩ })

/-- `kv.delete(key)`. -/
def kvDelete (s : KVState) (key : String) : Except Unit Unit × KVState :=
  if s.failAt.contains s.opCount then (.error (), tick s)
  else (.ok (), { s with opCount := s.opCount + 1, entries := removeKey s.entries key })

/-- The raw environment handed to `fetch`: the store binding flag, the admin
token, and the raw string configuration variables. -/
structure Env where
  kvPresent : Bool
  BOTNET_ADMIN_TOKEN : Option String := none
  RATE_WINDOW_SECONDS : Option String := none
  RATE_MAX_REQUESTS : Option String := none
  BURST_WINDOW_SECONDS : Option String := none
  BURST_MAX_REQUESTS : Option String := none
  BLOCK_TTL_SECONDS : Option String := none
  PROTECTED_PATH_PREFIXES : Option String := none
  ADMIN_PATH_PREFIX : Option String := none
  ALLOWLIST_IPS : Option String := none
  SUSPICIOUS_PATH_PATTERNS : Option String := none
  BAD_USER_AGENT_PATTERNS : Option String := none
  BOT_SCORE_TTL_SECONDS : Option String := none
  BOT_SCORE_BLOCK_THRESHOLD : Option String := none
  BOT_SCORE_PATH_WEIGHT : Option String := none
  BOT_SCORE_USER_AGENT_WEIGHT : Option String := none
  deriving DecidableEq, Repr

/-- The documented configuration fallbacks (`DEFAULTS` in the source). -/
structure ConfigDefaults where
  rateWindowSeconds : Nat
  rateMaxRequests : Nat
  burstWindowSeconds : Nat
  burstMaxRequests : Nat
  blockTtlSeconds : Nat
  protectedPathPrefixes : List String
  adminPathPrefix : String
  suspiciousPathPatterns : List String
  badUserAgentPatterns : List String
  botScoreTtlSeconds : Nat
  botScoreBlockThreshold : Nat
  botScorePathWeight : Nat
  botScoreUserAgentWeight : Nat

def DEFAULTS : ConfigDefaults where
  rateWindowSeconds := 60
  rateMaxRequests := 180
  burstWindowSeconds := 10
  burstMaxRequests := 30
  blockTtlSeconds := 3600
  protectedPathPrefixes := ["*"]
  adminPathPrefix := "/__botnet"
  suspiciousPathPatterns := ["/wp-login.php", "/xmlrpc.php", "/wp-admin", "/.env", "/cgi-bin", "/boaform"]
  badUserAgentPatterns := ["python-requests", "curl/", "wget/", "sqlmap", "masscan", "nmap", "zgrab", "go-http-client"]
  botScoreTtlSeconds := 900
  botScoreBlockThreshold := 6
  botScorePathWeight := 3
  botScoreUserAgentWeight := 2

/-- The resolved, typed configuration. -/
structure Config where
  rateWindowSeconds : Nat
  rateMaxRequests : Nat
  burstWindowSeconds : Nat
  burstMaxRequests : Nat
  blockTtlSeconds : Nat
  protectedPathPrefixes : List String
  adminPathPrefix : String
  allowlistIps : List String
  suspiciousPathPatterns : List String
  badUserAgentPatterns : List String
  botScoreTtlSeconds : Nat
  botScoreBlockThreshold : Nat
  botScorePathWeight : Nat
  botScoreUserAgentWeight : Nat
  deriving DecidableEq, Repr

/-- `parsePositiveInteger(value, fallback)`: a parse that is `NaN` or `≤ 0`
falls back. -/
def parsePositiveInteger (value : Option String) (fallback : Nat) : Nat :=
  match value with
  | none => fallback
  | some v =>
    match parseIntBase10 v with
    | none => fallback
    | some n => if n ≤ 0 then fallback else n.toNat

/-- `parseCsvList(value)`: split on commas, trim, drop empties; a missing or
empty raw value yields the empty list. -/
def parseCsvList (value : Option String) : List String :=
  match value with
  | none => []
  | some v =>
    if v = "" then []
    else ((jsSplit v ',').map jsTrim).filter (fun entry => entry ≠ "")

/-- `normalizePathPrefix`: empty becomes `/`, the sentinel `*` is kept, and
anything else is forced to start with `/`. -/
def normalizePathPrefix (p : String) : String :=
  if p = "" then "/"
  else if p = "*" then "*"
  else if jsStartsWith p "/" then p
  else "/" ++ p

/-- `parsePathPrefixes`. -/
def parsePathPrefixes (value : Option String) : List String :=
  match value with
  | none => DEFAULTS.protectedPathPrefixes
  | some v =>
    if v = "" then DEFAULTS.protectedPathPrefixes
    else
      let parsed := (parseCsvList (some v)).map normalizePathPrefix
      if parsed = [] then DEFAULTS.protectedPathPrefixes else parsed

/-- `parseStringPatterns`: CSV, lowercased, empty parse falls back. -/
def parseStringPatterns (value : Option String) (fallback : List String) : List String :=
  match value with
  | none => fallback
  | some v =>
    if v = "" then fallback
    else
      let parsed := (parseCsvList (some v)).map jsToLower
      if parsed = [] then fallback else parsed

/-- `readConfig(env)`. -/
def readConfig (env : Env) : Config where
  rateWindowSeconds := parsePositiveInteger env.RATE_WINDOW_SECONDS DEFAULTS.rateWindowSeconds
  rateMaxRequests := parsePositiveInteger env.RATE_MAX_REQUESTS DEFAULTS.rateMaxRequests
  burstWindowSeconds := parsePositiveInteger env.BURST_WINDOW_SECONDS DEFAULTS.burstWindowSeconds
  burstMaxRequests := parsePositiveInteger env.BURST_MAX_REQUESTS DEFAULTS.burstMaxRequests
  blockTtlSeconds := parsePositiveInteger env.BLOCK_TTL_SECONDS DEFAULTS.blockTtlSeconds
  protectedPathPrefixes := parsePathPrefixes env.PROTECTED_PATH_PREFIXES
  adminPathPrefix :=
    normalizePathPrefix
      (match env.ADMIN_PATH_PREFIX with
       | none => DEFAULTS.adminPathPrefix
       | some p => if p = "" then DEFAULTS.adminPathPrefix else p)
  allowlistIps := parseCsvList env.ALLOWLIST_IPS
  suspiciousPathPatterns := parseStringPatterns env.SUSPICIOUS_PATH_PATTERNS DEFAULTS.suspiciousPathPatterns
  badUserAgentPatterns := parseStringPatterns env.BAD_USER_AGENT_PATTERNS DEFAULTS.badUserAgentPatterns
  botScoreTtlSeconds := parsePositiveInteger env.BOT_SCORE_TTL_SECONDS DEFAULTS.botScoreTtlSeconds
  botScoreBlockThreshold := parsePositiveInteger env.BOT_SCORE_BLOCK_THRESHOLD DEFAULTS.botScoreBlockThreshold
  botScorePathWeight := parsePositiveInteger env.BOT_SCORE_PATH_WEIGHT DEFAULTS.botScorePathWeight
  botScoreUserAgentWeight := parsePositiveInteger env.BOT_SCORE_USER_AGENT_WEIGHT DEFAULTS.botScoreUserAgentWeight

/-- `shouldInspectPath(pathname, prefixes)`. -/
def shouldInspectPath (pathname : String) (prefixes : List String) : Bool :=
  prefixes.contains "*" || prefixes.any (fun p => jsStartsWith pathname p)

/-- `getClientIp(request)`: the trimmed `CF-Connecting-IP` header, or `""`. -/
def getClientIp (req : Request) : String :=
  match req.cfConnectingIp with
  | some s => if s = "" then "" else jsTrim s
  | none => ""

/-- `isValidIpv4`: four dot-separated runs of one to three digits, each ≤ 255. -/
def isValidIpv4 (ip : String) : Bool :=
  let parts := jsSplit ip '.'
  parts.length == 4 &&
    parts.all (fun part =>
      let cs := part.toList
      (1 ≤ cs.length && cs.length ≤ 3) && cs.all Char.isDigit && natOfDigits cs ≤ 255)

/-- `isValidIpv6`: contains a colon and is made of hex digits and colons. -/
def isValidIpv6 (ip : String) : Bool :=
  ip.toList.contains ':' && ip.toList.all (fun c => isHexChar c || c == ':')

def isValidIp (ip : String) : Bool :=
  isValidIpv4 ip || isValidIpv6 ip

def blockedKey (ip : String) : String := "blocked:" ++ ip

def counterKey (ip scope : String) (windowId : Nat) : String :=
  "count:" ++ scope ++ ":" ++ ip ++ ":" ++ toString windowId

def botScoreKey (ip : String) : String := "score:" ++ ip

/-- `Number.parseInt` applied to the raw text of a stored value: a stringified
integer parses to itself, the JSON text of a record parses to `NaN`. -/
def kvParseInt : KVValue → Option Int
  | .count n => some n
  | .record _ => none

/-- `getBlockedIpRecord(kv, ip)`: a missing value is `null`; otherwise
`JSON.parse` of the raw value. -/
def getBlockedIpRecord (s : KVState) (nowMs : Nat) (ip : String) :
    Except Unit (Option StoredDetails) × KVState :=
  match kvGet s nowMs (blockedKey ip) with
  | (.error e, s1) => (.error e, s1)
  | (.ok none, s1) => (.ok none, s1)
  | (.ok (some v), s1) =>
    (.ok (some (match v with | .record r => .record r | .count n => .num n)), s1)

/-- `blockIp(kv, ip, record, ttlSeconds)`. -/
def blockIp (s : KVState) (nowMs : Nat) (ip : String) (record : BlockRecord) (ttlSeconds : Nat) :
    Except Unit Unit × KVState :=
  kvPut s nowMs (blockedKey ip) (.record record) ttlSeconds

/-- `incrementCounter(kv, ip, scope, windowSeconds)`: read the bucket for the
current window, write `count+1` with TTL `windowSeconds+5`, return the new
count (a `NaN` read restarts at 1). -/
def incrementCounter (s : KVState) (nowMs : Nat) (ip scope : String) (windowSeconds : Nat) :
    Except Unit Int × KVState :=
  let nowSeconds := nowMs / 1000
  let windowId := nowSeconds / windowSeconds
  let key := counterKey ip scope windowId
  match kvGet s nowMs key with
  | (.error e, s1) => (.error e, s1)
  | (.ok currentRaw, s1) =>
    let current : Option Int :=
      match currentRaw with
      | none => some 0
      | some v => kvParseInt v
    let next : Int :=
      match current with
      | none => 1
      | some n => n + 1
    match kvPut s1 nowMs key (.count next) (windowSeconds + 5) with
    | (.error e, s2) => (.error e, s2)
    | (.ok _, s2) => (.ok next, s2)

/-- `incrementBotScore(kv, ip, delta, ttlSeconds)`: a missing or `NaN` current
value counts as 0; the new total is written back with the score TTL. -/
def incrementBotScore (s : KVState) (nowMs : Nat) (ip : String) (delta : Nat) (ttlSeconds : Nat) :
    Except Unit Int × KVState :=
  match kvGet s nowMs (botScoreKey ip) with
  | (.error e, s1) => (.error e, s1)
  | (.ok currentRaw, s1) =>
    let current : Option Int :=
      match currentRaw with
      | none => some 0
      | some v => kvParseInt v
    let next : Int := (match current with | none => 0 | some n => n) + delta
    match kvPut s1 nowMs (botScoreKey ip) (.count next) ttlSeconds with
    | (.error e, s2) => (.error e, s2)
    | (.ok _, s2) => (.ok next, s2)

/-- `getBotScore(kv, ip)`: missing or `NaN` reads as 0. -/
def getBotScore (s : KVState) (nowMs : Nat) (ip : String) : Except Unit Int × KVState :=
  match kvGet s nowMs (botScoreKey ip) with
  | (.error e, s1) => (.error e, s1)
  | (.ok none, s1) => (.ok 0, s1)
  | (.ok (some v), s1) =>
    (.ok (match kvParseInt v with | none => 0 | some n => n), s1)

def matchesAnyPattern (target : String) (patterns : List String) : Bool :=
  patterns.any (fun pat => jsIncludes target pat)

/-- The outcome of `maybeScoreBotSignals`: `{shouldBlock:false}` or
`{shouldBlock:true, record}`. -/
inductive ScoreOutcome where
  | noBlock
  | block (record : BlockRecord)
  deriving DecidableEq, Repr

/-- `maybeScoreBotSignals(request, url, kv, ip, config)`: sum the path signal
and at most one user-agent signal; a zero delta is a no-op, otherwise the
score is incremented and compared against the block threshold. -/
def maybeScoreBotSignals (req : Request) (s : KVState) (nowMs : Nat) (ip : String)
    (config : Config) : Except Unit ScoreOutcome × KVState :=
  let lowerPath := jsToLower req.pathname
  let pathHit := matchesAnyPattern lowerPath config.suspiciousPathPatterns
  let userAgent := jsToLower (req.userAgent.getD "")
  let uaMissing := userAgent.isEmpty
  let uaHit := uaMissing || matchesAnyPattern userAgent config.badUserAgentPatterns
  let scoreDelta : Nat :=
    (if pathHit then config.botScorePathWeight else 0) +
      (if uaHit then config.botScoreUserAgentWeight else 0)
  let signals : List String :=
    (if pathHit then ["suspicious_path"] else []) ++
      (if uaHit then [if uaMissing then "missing_user_agent" else "bad_user_agent"] else [])
  if scoreDelta = 0 then (.ok .noBlock, s)
  else
    match incrementBotScore s nowMs ip scoreDelta config.botScoreTtlSeconds with
    | (.error e, s1) => (.error e, s1)
    | (.ok score, s1) =>
      if score < (config.botScoreBlockThreshold : Int) then (.ok .noBlock, s1)
      else
        (.ok (.block
          { reason := "bot_signature"
            blockedAt := nowMs
            score := some score
            blockThreshold := some config.botScoreBlockThreshold
            scoreDelta := some scoreDelta
            signals := some signals
            path := some req.pathname }), s1)

/-- The JSON payloads the worker produces, plus the upstream pass-through. -/
inductive RespBody where
  | origin
  | blocked (ip : String) (details : StoredDetails)
  | err (msg : String)
  | health (service : String)
  | statusReport (ip : String) (isBlocked : Bool) (details : Option StoredDetails) (botScore : Int)
  | adminBlocked (ip : String) (ttlSeconds : Nat) (details : BlockRecord)
  | unblocked (ip : String)
  deriving DecidableEq, Repr

structure Response where
  status : Nat
  body : RespBody
  deriving DecidableEq, Repr

/-- `blockedResponse(ip, details)`: the 403 block payload. -/
def blockedResponse (ip : String) (details : StoredDetails) : Response :=
  ⟨403, .blocked ip details⟩

/-- `readJsonBody(request)`: `request.json()`, with parse failures and absent
bodies caught and turned into `null`. -/
def readJsonBody : RawBody → Option ParsedBody
  | .absent => none
  | .malformed => none
  | .parsed v => some v

/-- `isAuthorized(request, expectedToken)`: exact bearer-token match against
one configured secret; a falsy secret refuses everything. -/
def isAuthorized (req : Request) (expectedToken : Option String) : Bool :=
  match expectedToken with
  | none => false
  | some tok =>
    if tok = "" then false
    else
      let authHeader := req.authorization.getD ""
      if jsStartsWith authHeader "Bearer " then
        let providedToken := jsTrim (String.mk (authHeader.toList.drop 7))
        decide (providedToken ≠ "" ∧ providedToken = tok)
      else false

/-- The `ip` field of a parsed body, as the block route reads it:
`typeof body.ip === 'string' ? body.ip.trim() : ''`. -/
def bodyIpField : ParsedBody → String
  | .obj (some (.str x)) _ _ => jsTrim x
  | _ => ""

/-- `parsePositiveInteger` applied to a JSON field (`body.ttlSeconds`). -/
def parsePositiveIntegerJs (v : Option JsVal) (fallback : Nat) : Nat :=
  let parsed : Option Int :=
    match v with
    | some (.num n) => some n
    | some (.str x) => parseIntBase10 x
    | _ => none
  match parsed with
  | none => fallback
  | some n => if n ≤ 0 then fallback else n.toNat

/-- The `reason` field of the admin block route:
`typeof body.reason === 'string' && body.reason.trim() ? body.reason.trim() : 'manual'`. -/
def bodyReasonField : ParsedBody → String
  | .obj _ (some (.str r)) _ => if jsTrim r = "" then "manual" else jsTrim r
  | _ => "manual"

def bodyTtlField : ParsedBody → Option JsVal
  | .obj _ _ t => t
  | _ => none

/-- `handleAdminRequest(request, env, config, url)`.  Store faults on this
path are NOT caught by the worker, hence the `Except` result. -/
def handleAdminRequest (req : Request) (env : Env) (config : Config) (nowMs : Nat)
    (s : KVState) : Except Unit Response × KVState :=
  if env.kvPresent = false then
    (.ok ⟨500, .err "BOTNET_KV binding is missing"⟩, s)
  else if req.method = "GET" ∧ req.pathname = config.adminPathPrefix ++ "/health" then
    (.ok ⟨200, .health "botnet-guard"⟩, s)
  else if isAuthorized req env.BOTNET_ADMIN_TOKEN = false then
    (.ok ⟨401, .err "unauthorized"⟩, s)
  else if req.method = "GET" ∧ req.pathname = config.adminPathPrefix ++ "/status" then
    let ip := req.searchIp.getD ""
    if isValidIp ip = false then (.ok ⟨400, .err "valid ip is required"⟩, s)
    else
      match getBlockedIpRecord s nowMs ip with
      | (.error e, s1) => (.error e, s1)
      | (.ok details, s1) =>
        match getBotScore s1 nowMs ip with
        | (.error e, s2) => (.error e, s2)
        | (.ok score, s2) =>
          (.ok ⟨200, .statusReport ip
            (match details with | none => false | some d => jsTruthyDetails d) details score⟩, s2)
  else if req.method = "POST" ∧ req.pathname = config.adminPathPrefix ++ "/block" then
    match readJsonBody req.body with
    | none => (.ok ⟨400, .err "invalid json body"⟩, s)
    | some .jsNull => (.ok ⟨400, .err "invalid json body"⟩, s)
    | some .nonObj => (.ok ⟨400, .err "invalid json body"⟩, s)
    | some (.obj ipF reasonF ttlF) =>
      let ip := bodyIpField (.obj ipF reasonF ttlF)
      if isValidIp ip = false then (.ok ⟨400, .err "valid ip is required"⟩, s)
      else
        let ttlSeconds := parsePositiveIntegerJs ttlF config.blockTtlSeconds
        let record : BlockRecord :=
          { reason := bodyReasonField (.obj ipF reasonF ttlF)
            blockedAt := nowMs
            actor := some "admin_api" }
        match blockIp s nowMs ip record ttlSeconds with
        | (.error e, s1) => (.error e, s1)
        | (.ok _, s1) => (.ok ⟨200, .adminBlocked ip ttlSeconds record⟩, s1)
  else if (req.method = "POST" ∨ req.method = "DELETE") ∧
      req.pathname = config.adminPathPrefix ++ "/unblock" then
    let ip :=
      match readJsonBody req.body with
      | some pb => bodyIpField pb
      | none => ""
    if isValidIp ip = false then (.ok ⟨400, .err "valid ip is required"⟩, s)
    else
      match kvDelete s (blockedKey ip) with
      | (.error e, s1) => (.error e, s1)
      | (.ok _, s1) =>
        match kvDelete s1 (botScoreKey ip) with
        | (.error e, s2) => (.error e, s2)
        | (.ok _, s2) => (.ok ⟨200, .unblocked ip⟩, s2)
  else
    (.ok ⟨404, .err "not_found"⟩, s)

/-- The `shouldInspectPath` block of `fetch` (steps 4–7 of the decision
engine): window counter, burst counter, bot score, each terminal on a
positive; an `.ok none` means "no decision, forward". -/
def inspectProtected (req : Request) (config : Config) (nowMs : Nat) (ip : String) (s : KVState) :
    Except Unit (Option Response) × KVState :=
  if shouldInspectPath req.pathname config.protectedPathPrefixes then
    match incrementCounter s nowMs ip "window" config.rateWindowSeconds with
    | (.error e, s1) => (.error e, s1)
    | (.ok windowCount, s1) =>
      if windowCount > (config.rateMaxRequests : Int) then
        let blockRecord : BlockRecord :=
          { reason := "rate_limit_window"
            blockedAt := nowMs
            windowSeconds := some config.rateWindowSeconds
            maxRequests := some config.rateMaxRequests
            observedCount := some windowCount
            path := some req.pathname }
        match blockIp s1 nowMs ip blockRecord config.blockTtlSeconds with
        | (.error e, s2) => (.error e, s2)
        | (.ok _, s2) => (.ok (some (blockedResponse ip (.record blockRecord))), s2)
      else
        match incrementCounter s1 nowMs ip "burst" config.burstWindowSeconds with
        | (.error e, s2) => (.error e, s2)
        | (.ok burstCount, s2) =>
          if burstCount > (config.burstMaxRequests : Int) then
            let blockRecord : BlockRecord :=
              { reason := "rate_limit_burst"
                blockedAt := nowMs
                windowSeconds := some config.burstWindowSeconds
                maxRequests := some config.burstMaxRequests
                observedCount := some burstCount
                path := some req.pathname }
            match blockIp s2 nowMs ip blockRecord config.blockTtlSeconds with
            | (.error e, s3) => (.error e, s3)
            | (.ok _, s3) => (.ok (some (blockedResponse ip (.record blockRecord))), s3)
          else
            match maybeScoreBotSignals req s2 nowMs ip config with
            | (.error e, s3) => (.error e, s3)
            | (.ok .noBlock, s3) => (.ok none, s3)
            | (.ok (.block record), s3) =>
              match blockIp s3 nowMs ip record config.blockTtlSeconds with
              | (.error e, s4) => (.error e, s4)
              | (.ok _, s4) => (.ok (some (blockedResponse ip (.record record))), s4)
  else (.ok none, s)

/-- The body of the `try` block of `fetch` (steps 3–7 of the decision
engine): the block-ledger check followed by the protected-path checks;
`.error` models a thrown store exception. -/
def inspectTry (req : Request) (config : Config) (nowMs : Nat) (ip : String) (s : KVState) :
    Except Unit (Option Response) × KVState :=
  match getBlockedIpRecord s nowMs ip with
  | (.error e, s1) => (.error e, s1)
  | (.ok blocked, s1) =>
    match blocked with
    | some d =>
      if jsTruthyDetails d then (.ok (some (blockedResponse ip d)), s1)
      else inspectProtected req config nowMs ip s1
    | none => inspectProtected req config nowMs ip s1

/-- `fetch(request, env)`: the worker entry point.  `origin` is the upstream
response returned by the global `fetch(request)`. -/
def workerFetch (req : Request) (env : Env) (origin : Response) (nowMs : Nat) (s : KVState) :
    Except Unit Response × KVState :=
  let config := readConfig env
  if jsStartsWith req.pathname config.adminPathPrefix then
    handleAdminRequest req env config nowMs s
  else if env.kvPresent = false then (.ok origin, s)
  else
    let ip := getClientIp req
    if ip = "" ∨ isValidIp ip = false ∨ ip ∈ config.allowlistIps then (.ok origin, s)
    else
      match inspectTry req config nowMs ip s with
      | (.ok (some resp), s') => (.ok resp, s')
      | (.ok none, s') => (.ok origin, s')
      | (.error _, s') => (.ok origin, s')

deriving instance DecidableEq for Except

/-- `JSON.parse` of a stored raw value, as `getBlockedIpRecord` performs it. -/
def storedOfKV : KVValue → StoredDetails
  | .record r => .record r
  | .count n => .num n

/-- The post-increment value of the counter bucket at `key`: the worker reads
the current raw value (absent = 0, unparsable = restart at 1) and adds one. -/
def postIncCount (s : KVState) (nowMs : Nat) (key : String) : Int :=
  match liveLookup s nowMs key with
  | none => 1
  | some v =>
    match kvParseInt v with
    | none => 1
    | some n => n + 1

/-- The bot score currently on record for `ip` (absent or unparsable = 0). -/
def scoreBase (s : KVState) (nowMs : Nat) (ip : String) : Int :=
  match liveLookup s nowMs (botScoreKey ip) with
  | none => 0
  | some v =>
    match kvParseInt v with
    | none => 0
    | some n => n

/-- Path signal of the bot scorer: the lowercased path contains a configured
suspicious-path pattern as a substring. -/
def claimedPathSignal (req : Request) (config : Config) : Bool :=
  matchesAnyPattern (jsToLower req.pathname) config.suspiciousPathPatterns

/-- User-agent-missing signal: the user agent header is absent or empty. -/
def claimedUaMissing (req : Request) : Bool :=
  (jsToLower (req.userAgent.getD "")).isEmpty

/-- Bad-user-agent signal: a present user agent whose lowercasing contains a
configured bad pattern (mutually exclusive with the missing signal). -/
def claimedUaBad (req : Request) (config : Config) : Bool :=
  !claimedUaMissing req &&
    matchesAnyPattern (jsToLower (req.userAgent.getD "")) config.badUserAgentPatterns

/-- The scorer's delta as the claim states it: the path signal plus exactly
one of the two mutually exclusive user-agent signals. -/
def claimedDelta (req : Request) (config : Config) : Nat :=
  (if claimedPathSignal req config then config.botScorePathWeight else 0) +
    (if claimedUaMissing req then config.botScoreUserAgentWeight
     else if claimedUaBad req config then config.botScoreUserAgentWeight else 0)

/-- The signal names accumulated by the scorer, in evaluation order. -/
def claimedSignals (req : Request) (config : Config) : List String :=
  (if claimedPathSignal req config then ["suspicious_path"] else []) ++
    (if claimedUaMissing req then ["missing_user_agent"]
     else if claimedUaBad req config then ["bad_user_agent"] else [])

/-- The `bot_signature` record produced when the scorer decides to block. -/
def botBlockRecord (req : Request) (s : KVState) (nowMs : Nat) (ip : String)
    (config : Config) : BlockRecord where
  reason := "bot_signature"
  blockedAt := nowMs
  score := some (scoreBase s nowMs ip + claimedDelta req config)
  blockThreshold := some config.botScoreBlockThreshold
  scoreDelta := some (claimedDelta req config)
  signals := some (claimedSignals req config)
  path := some req.pathname

/-- A baseline test environment: store bound, admin secret `test-token`,
every configuration variable left to its documented default. -/
def envT : Env := { kvPresent := true, BOTNET_ADMIN_TOKEN := some "test-token" }

def originOk : Response := ⟨200, .origin⟩

def s0 : KVState := ⟨[], [], 0⟩

/-- The environment of the repository's rate-limit test: window of 60 s,
2 requests allowed, `/api` protected. -/
def c2Env : Env :=
  { kvPresent := true
    BOTNET_ADMIN_TOKEN := some "test-token"
    RATE_WINDOW_SECONDS := some "60"
    RATE_MAX_REQUESTS := some "2"
    BURST_WINDOW_SECONDS := some "10"
    BURST_MAX_REQUESTS := some "100"
    BLOCK_TTL_SECONDS := some "120"
    PROTECTED_PATH_PREFIXES := some "/api"
    SUSPICIOUS_PATH_PATTERNS := some "/wp-login.php,/xmlrpc.php"
    BAD_USER_AGENT_PATTERNS := some "curl/,python-requests"
    BOT_SCORE_TTL_SECONDS := some "900"
    BOT_SCORE_BLOCK_THRESHOLD := some "6"
    BOT_SCORE_PATH_WEIGHT := some "3"
    BOT_SCORE_USER_AGENT_WEIGHT := some "2"
    ADMIN_PATH_PREFIX := some "/__botnet"
    ALLOWLIST_IPS := some "" }

def c2Req : Request :=
  { method := "GET", pathname := "/api/login", searchIp := none
    cfConnectingIp := some "1.2.3.4", userAgent := some "Mozilla/5.0 test"
    authorization := none, body := .absent }

/-- A pre-existing manual block record, as the admin API would write it. -/
def c1Rec : BlockRecord := { reason := "manual", blockedAt := 0, actor := some "admin_api" }

def c1Req : Request :=
  { method := "GET", pathname := "/whatever", searchIp := none
    cfConnectingIp := some "1.2.3.4", userAgent := some "Mozilla/5.0 test"
    authorization := none, body := .absent }

def c1S : KVState := ⟨[(blockedKey "1.2.3.4", ⟨.record c1Rec, none⟩)], [], 0⟩

/-- A store whose very first operation throws. -/
def c3S : KVState := ⟨[], [0], 0⟩

def c4Env : Env := { envT with BOT_SCORE_BLOCK_THRESHOLD := some "5" }

def c4Req : Request :=
  { method := "GET", pathname := "/wp-login.php", searchIp := none
    cfConnectingIp := some "9.9.9.9", userAgent := some "curl/8.0.1"
    authorization := none, body := .absent }

def c5Env : Env := { envT with ALLOWLIST_IPS := some "10.0.0.1" }

def c5Req : Request :=
  { method := "GET", pathname := "/wp-login.php", searchIp := none
    cfConnectingIp := some "10.0.0.1", userAgent := none
    authorization := none, body := .absent }

def c5S : KVState := ⟨[(blockedKey "10.0.0.1", ⟨.record c1Rec, none⟩)], [], 0⟩

def c6Req : Request :=
  { method := "POST", pathname := "/__botnet/block", searchIp := none
    cfConnectingIp := some "1.2.3.4", userAgent := some "x"
    authorization := some "Bearer wrong-token"
    body := .parsed (.obj (some (.str "8.8.8.8")) none none) }

def c7Req : Request :=
  { method := "POST", pathname := "/__botnet/unblock", searchIp := none
    cfConnectingIp := some "1.2.3.4", userAgent := some "x"
    authorization := some "Bearer test-token"
    body := .parsed (.obj (some (.str "8.8.8.8")) none none) }

def c7S : KVState :=
  ⟨[(blockedKey "8.8.8.8", ⟨.record c1Rec, some 1000000⟩),
    (botScoreKey "8.8.8.8", ⟨.count 4, some 1000000⟩)], [], 0⟩

def c8Env : Env := { kvPresent := false }

def c8Req : Request :=
  { method := "GET", pathname := "/__botnet/health", searchIp := none
    cfConnectingIp := some "1.2.3.4", userAgent := some "x"
    authorization := none, body := .absent }

def c9ReqMalformed : Request := { c6Req with authorization := some "Bearer test-token", body := .malformed }

def c9ReqNoIp : Request :=
  { c6Req with authorization := some "Bearer test-token", body := .parsed (.obj none none none) }

def c10Req : Request :=
  { method := "GET", pathname := "/__botnetextra", searchIp := none
    cfConnectingIp := some "8.8.8.8", userAgent := some "x"
    authorization := none, body := .absent }

def c10S : KVState := ⟨[(blockedKey "8.8.8.8", ⟨.record c1Rec, none⟩)], [], 0⟩

/-- The `rate_limit_window` record as the engine builds it at count `wc`. -/
def windowBlockRecord (req : Request) (config : Config) (nowMs : Nat) (wc : Int) : BlockRecord where
  reason := "rate_limit_window"
  blockedAt := nowMs
  windowSeconds := some config.rateWindowSeconds
  maxRequests := some config.rateMaxRequests
  observedCount := some wc
  path := some req.pathname

def c2WitS : KVState := ⟨[("count:window:1.2.3.4:0", ⟨.count 5, some 100000⟩)], [], 0⟩

theorem str_ne_of_data_head_ne {s t : String} (h : s.data.head? ≠ t.data.head?) : s ≠ t :=
  fun he => h (he ▸ rfl)

theorem head_blockedKey (ip : String) : (blockedKey ip).data.head? = some 'b' := by
  have hb : "blocked:".data.head? = some 'b' := by decide
  simp [blockedKey, hb]

theorem head_counterKey (ip scope : String) (w : Nat) :
    (counterKey ip scope w).data.head? = some 'c' := by
  have hb : "count:".data.head? = some 'c' := by decide
  simp [counterKey, hb]

theorem head_botScoreKey (ip : String) : (botScoreKey ip).data.head? = some 's' := by
  have hb : "score:".data.head? = some 's' := by decide
  simp [botScoreKey, hb]

theorem blockedKey_ne_counterKey (a b sc : String) (w : Nat) :
    blockedKey a ≠ counterKey b sc w :=
  str_ne_of_data_head_ne (by simp [head_blockedKey, head_counterKey])

theorem blockedKey_ne_botScoreKey (a b : String) : blockedKey a ≠ botScoreKey b :=
  str_ne_of_data_head_ne (by simp [head_blockedKey, head_botScoreKey])

theorem strAppend_right_inj {a b c : String} (h : a ++ b = a ++ c) : b = c := by
  have hd := congrArg String.data h
  simp only [String.data_append] at hd
  have h2 := List.append_cancel_left hd
  cases b; cases c
  exact congrArg String.mk h2

theorem findEntry_putEntry_self (l : List (String × KVEntry)) (k : String) (e : KVEntry) :
    findEntry (putEntry l k e) k = some e := by
  simp [putEntry, findEntry]

theorem findEntry_removeKey_self (l : List (String × KVEntry)) (k : String) :
    findEntry (removeKey l k) k = none := by
  induction l with
  | nil => simp [removeKey, findEntry]
  | cons p t ih =>
    by_cases hp : p.1 = k
    · simp [removeKey, hp, ih]
    · simp [removeKey, hp, findEntry, ih]

theorem findEntry_removeKey_ne (l : List (String × KVEntry)) {k k' : String} (h : k' ≠ k) :
    findEntry (removeKey l k) k' = findEntry l k' := by
  have hkk : ¬ k = k' := fun he => h he.symm
  induction l with
  | nil => simp [removeKey]
  | cons p t ih =>
    by_cases hp : p.1 = k
    · simp [removeKey, hp, findEntry, hkk, ih]
    · by_cases hq : p.1 = k'
      · simp [removeKey, hp, findEntry, hq, h]
      · simp [removeKey, hp, findEntry, hq, ih]

theorem findEntry_putEntry_ne (l : List (String × KVEntry)) {k k' : String} (h : k' ≠ k)
    (e : KVEntry) : findEntry (putEntry l k e) k' = findEntry l k' := by
  have hk : ¬ k = k' := fun he => h he.symm
  simp [putEntry, findEntry, hk, findEntry_removeKey_ne l h]

theorem removeKey_removeKey_self (l : List (String × KVEntry)) (k : String) :
    removeKey (removeKey l k) k = removeKey l k := by
  induction l with
  | nil => simp [removeKey]
  | cons p t ih =>
    by_cases hp : p.1 = k
    · simp [removeKey, hp, ih]
    · simp [removeKey, hp, ih]

theorem removeKey_comm (l : List (String × KVEntry)) (a b : String) :
    removeKey (removeKey l a) b = removeKey (removeKey l b) a := by
  induction l with
  | nil => simp [removeKey]
  | cons p t ih =>
    by_cases ha : p.1 = a <;> by_cases hb : p.1 = b
    · have hab : a = b := ha ▸ hb
      subst hab
      simp [removeKey, ha, ih]
    · have hab : ¬ a = b := fun he => hb (ha.trans he)
      simp [removeKey, ha, hb, hab, ih]
    · have hba : ¬ b = a := fun he => ha (hb.trans he)
      simp [removeKey, ha, hb, hba, ih]
    · simp [removeKey, ha, hb, ih]

theorem ite_pair {c : Prop} [inst : Decidable c] {A B : Type} (a b : A) (x : B) :
    (if c then (a, x) else (b, x)) = ((if c then a else b), x) := by
  split <;> rfl

theorem liveLookup_entries_congr {s t : KVState} (h : s.entries = t.entries) (n : Nat)
    (k : String) : liveLookup s n k = liveLookup t n k := by
  simp [liveLookup, h]

theorem kvGet_noFault {s : KVState} (h : s.failAt = []) (nowMs : Nat) (key : String) :
    kvGet s nowMs key = (.ok (liveLookup s nowMs key), tick s) := by
  simp [kvGet, h]

theorem kvPut_noFault {s : KVState} (h : s.failAt = []) (nowMs : Nat) (key : String)
    (v : KVValue) (ttl : Nat) :
    kvPut s nowMs key v ttl =
      (.ok (), { s with opCount := s.opCount + 1,
                        entries := putEntry s.entries key ⟨v, some (nowMs + ttl * 1000)⟩ }) := by
  simp [kvPut, h]

theorem kvDelete_noFault {s : KVState} (h : s.failAt = []) (key : String) :
    kvDelete s key =
      (.ok (), { s with opCount := s.opCount + 1, entries := removeKey s.entries key }) := by
  simp [kvDelete, h]

theorem getBlockedIpRecord_noFault {s : KVState} (h : s.failAt = []) (nowMs : Nat)
    (ip : String) :
    getBlockedIpRecord s nowMs ip =
      (.ok ((liveLookup s nowMs (blockedKey ip)).map storedOfKV), tick s) := by
  rw [getBlockedIpRecord, kvGet_noFault h]
  cases hv : liveLookup s nowMs (blockedKey ip) with
  | none => simp
  | some v => cases v <;> simp [storedOfKV]

theorem incrementCounter_noFault {s : KVState} (h : s.failAt = []) (nowMs : Nat)
    (ip scope : String) (ws : Nat) :
    incrementCounter s nowMs ip scope ws =
      (.ok (postIncCount s nowMs (counterKey ip scope (nowMs / 1000 / ws))),
       { s with opCount := s.opCount + 2,
                entries := putEntry s.entries (counterKey ip scope (nowMs / 1000 / ws))
                  ⟨.count (postIncCount s nowMs (counterKey ip scope (nowMs / 1000 / ws))),
                   some (nowMs + (ws + 5) * 1000)⟩ }) := by
  have ht : (tick s).failAt = [] := h
  rw [incrementCounter, kvGet_noFault h]
  have hl : liveLookup (tick s) nowMs (counterKey ip scope (nowMs / 1000 / ws)) =
      liveLookup s nowMs (counterKey ip scope (nowMs / 1000 / ws)) := rfl
  cases hv : liveLookup s nowMs (counterKey ip scope (nowMs / 1000 / ws)) with
  | none => simp [kvPut, h, postIncCount, hv, tick, putEntry]
  | some v =>
    cases v with
    | record r => simp [kvPut, h, postIncCount, hv, kvParseInt, tick, putEntry]
    | count n => simp [kvPut, h, postIncCount, hv, kvParseInt, tick, putEntry]

theorem incrementBotScore_noFault {s : KVState} (h : s.failAt = []) (nowMs : Nat)
    (ip : String) (delta ttl : Nat) :
    incrementBotScore s nowMs ip delta ttl =
      (.ok (scoreBase s nowMs ip + delta),
       { s with opCount := s.opCount + 2,
                entries := putEntry s.entries (botScoreKey ip)
                  ⟨.count (scoreBase s nowMs ip + delta), some (nowMs + ttl * 1000)⟩ }) := by
  have ht : (tick s).failAt = [] := h
  rw [incrementBotScore, kvGet_noFault h]
  cases hv : liveLookup s nowMs (botScoreKey ip) with
  | none => simp [kvPut, h, scoreBase, hv, tick, putEntry]
  | some v =>
    cases v with
    | record r => simp [kvPut, h, scoreBase, hv, kvParseInt, tick, putEntry]
    | count n => simp [kvPut, h, scoreBase, hv, kvParseInt, tick, putEntry]

theorem maybeScoreBotSignals_noFault {s : KVState} (h : s.failAt = []) (req : Request)
    (nowMs : Nat) (ip : String) (config : Config) :
    maybeScoreBotSignals req s nowMs ip config =
      (if claimedDelta req config = 0 then (.ok .noBlock, s)
       else
         ((if scoreBase s nowMs ip + claimedDelta req config <
             (config.botScoreBlockThreshold : Int)
           then .ok .noBlock
           else .ok (.block (botBlockRecord req s nowMs ip config))),
          { s with opCount := s.opCount + 2,
                   entries := putEntry s.entries (botScoreKey ip)
                     ⟨.count (scoreBase s nowMs ip + claimedDelta req config),
                      some (nowMs + config.botScoreTtlSeconds * 1000)⟩ })) := by
  rw [maybeScoreBotSignals]
  have hd : claimedDelta req config =
      (if claimedPathSignal req config then config.botScorePathWeight else 0) +
        (if claimedUaMissing req ||
            matchesAnyPattern (jsToLower (req.userAgent.getD ""))
              config.badUserAgentPatterns
          then config.botScoreUserAgentWeight else 0) := by
    rw [claimedDelta]
    cases hm : claimedUaMissing req with
    | true => simp
    | false => simp [claimedUaBad, hm]
  have hs : claimedSignals req config =
      (if claimedPathSignal req config then ["suspicious_path"] else []) ++
        (if claimedUaMissing req ||
            matchesAnyPattern (jsToLower (req.userAgent.getD ""))
              config.badUserAgentPatterns
          then [if claimedUaMissing req then "missing_user_agent" else "bad_user_agent"]
          else []) := by
    rw [claimedSignals]
    cases hm : claimedUaMissing req with
    | true => simp
    | false => simp [claimedUaBad, hm]
  rw [claimedPathSignal, claimedUaMissing] at hd hs
  rw [← hd, ← hs, botBlockRecord]
  by_cases hz : claimedDelta req config = 0
  · simp [hz]
  · simp only [hz, if_false]
    rw [incrementBotScore_noFault h]
    simp [hd, hs, ite_pair]

theorem workerFetch_engine {req : Request} {env : Env} (origin : Response) (nowMs : Nat)
    (s : KVState)
    (hAdmin : jsStartsWith req.pathname (readConfig env).adminPathPrefix = false)
    (hKv : env.kvPresent = true)
    (hValid : isValidIp (getClientIp req) = true)
    (hAllow : getClientIp req ∉ (readConfig env).allowlistIps) :
    workerFetch req env origin nowMs s =
      (match inspectTry req (readConfig env) nowMs (getClientIp req) s with
       | (.ok (some resp), s') => (.ok resp, s')
       | (.ok none, s') => (.ok origin, s')
       | (.error _, s') => (.ok origin, s')) := by
  have hip : ¬ getClientIp req = "" := by
    intro he
    rw [he] at hValid
    exact absurd hValid (by decide)
  simp [workerFetch, hAdmin, hKv, hip, hValid, hAllow]

/-- C1: a live block record forces the 403 block response carrying that
record, and no counter or score is written for the request. -/
theorem C1_live_block_forces_403 (req : Request) (env : Env) (origin : Response)
    (nowMs : Nat) (s : KVState) (r : BlockRecord)
    (hAdmin : jsStartsWith req.pathname (readConfig env).adminPathPrefix = false)
    (hKv : env.kvPresent = true)
    (hValid : isValidIp (getClientIp req) = true)
    (hAllow : getClientIp req ∉ (readConfig env).allowlistIps)
    (hRead : s.failAt.contains s.opCount = false)
    (hRec : liveLookup s nowMs (blockedKey (getClientIp req)) = some (.record r)) :
    workerFetch req env origin nowMs s =
      (.ok ⟨403, .blocked (getClientIp req) (.record r)⟩, tick s) ∧
    (workerFetch req env origin nowMs s).2.entries = s.entries := by
  have hRead2 : s.opCount ∉ s.failAt := by simpa using hRead
  have hG : getBlockedIpRecord s nowMs (getClientIp req) =
      (.ok (some (.record r)), tick s) := by
    simp [getBlockedIpRecord, kvGet, hRead2, hRec, storedOfKV]
  have hI : inspectTry req (readConfig env) nowMs (getClientIp req) s =
      (.ok (some (blockedResponse (getClientIp req) (.record r))), tick s) := by
    simp [inspectTry, hG, jsTruthyDetails]
  have hW := workerFetch_engine origin nowMs s hAdmin hKv hValid hAllow
  rw [hI] at hW
  have hW2 : workerFetch req env origin nowMs s =
      (.ok (blockedResponse (getClientIp req) (.record r)), tick s) := hW
  exact ⟨hW2, by rw [hW2]; rfl⟩

theorem C1_witness :
    liveLookup c1S 5 (blockedKey (getClientIp c1Req)) = some (.record c1Rec) ∧
    workerFetch c1Req envT originOk 5 c1S =
      (.ok ⟨403, .blocked (getClientIp c1Req) (.record c1Rec)⟩, tick c1S) :=
  ⟨by decide,
   (C1_live_block_forces_403 c1Req envT originOk 5 c1S c1Rec (by decide) (by decide)
     (by decide) (by decide) (by decide) (by decide)).1⟩

/-- C3: on a non-admin path, a store exception anywhere in the inspection is
caught and the request is forwarded with the upstream response; the worker
never surfaces a store failure as an error. -/
theorem C3_store_faults_fail_open (req : Request) (env : Env) (origin : Response)
    (nowMs : Nat) (s : KVState)
    (hAdmin : jsStartsWith req.pathname (readConfig env).adminPathPrefix = false) :
    (∀ e : Unit, (workerFetch req env origin nowMs s).1 ≠ .error e) ∧
    ((inspectTry req (readConfig env) nowMs (getClientIp req) s).1 = .error () →
      (workerFetch req env origin nowMs s).1 = .ok origin) := by
  simp only [workerFetch, hAdmin, Bool.false_eq_true, if_false]
  by_cases hk : env.kvPresent = false
  · simp [hk]
  · simp only [hk, if_false]
    by_cases hb : getClientIp req = "" ∨ isValidIp (getClientIp req) = false ∨
        getClientIp req ∈ (readConfig env).allowlistIps
    · simp [hb]
    · simp only [hb, if_false]
      rcases hIt : inspectTry req (readConfig env) nowMs (getClientIp req) s with ⟨x, s'⟩
      cases x with
      | error e => simp
      | ok o => cases o <;> simp

theorem C3_witness :
    (inspectTry c1Req (readConfig envT) 7 (getClientIp c1Req) c3S).1 = .error () ∧
    (workerFetch c1Req envT originOk 7 c3S).1 = .ok originOk :=
  ⟨by decide,
   (C3_store_faults_fail_open c1Req envT originOk 7 c3S (by decide)).2 (by decide)⟩

/-- C5: a missing, invalid or allowlisted client address makes the engine
forward the upstream response with the store untouched, whatever is in it. -/
theorem C5_unidentified_or_allowlisted_forwards (req : Request) (env : Env)
    (origin : Response) (nowMs : Nat) (s : KVState)
    (hAdmin : jsStartsWith req.pathname (readConfig env).adminPathPrefix = false)
    (hBad : getClientIp req = "" ∨ isValidIp (getClientIp req) = false ∨
        getClientIp req ∈ (readConfig env).allowlistIps) :
    workerFetch req env origin nowMs s = (.ok origin, s) := by
  simp only [workerFetch, hAdmin, Bool.false_eq_true, if_false]
  by_cases hk : env.kvPresent = false
  · simp [hk]
  · simp [hk, hBad]

theorem C5_witness :
    liveLookup c5S 3 (blockedKey (getClientIp c5Req)) = some (.record c1Rec) ∧
    getClientIp c5Req ∈ (readConfig c5Env).allowlistIps ∧
    workerFetch c5Req c5Env originOk 3 c5S = (.ok originOk, c5S) :=
  ⟨by decide, by decide,
   C5_unidentified_or_allowlisted_forwards c5Req c5Env originOk 3 c5S (by decide)
     (Or.inr (Or.inr (by decide)))⟩

/-- C6: with the store bound, any admin-path request other than GET health
that fails bearer authentication gets 401 and the store is untouched. -/
theorem C6_unauthorized_admin_is_401 (req : Request) (env : Env) (origin : Response)
    (nowMs : Nat) (s : KVState)
    (hAdmin : jsStartsWith req.pathname (readConfig env).adminPathPrefix = true)
    (hKv : env.kvPresent = true)
    (hNh : ¬(req.method = "GET" ∧ req.pathname = (readConfig env).adminPathPrefix ++ "/health"))
    (hAuth : isAuthorized req env.BOTNET_ADMIN_TOKEN = false) :
    workerFetch req env origin nowMs s = (.ok ⟨401, .err "unauthorized"⟩, s) := by
  simp [workerFetch, hAdmin, handleAdminRequest, hKv, hNh, hAuth]

theorem C6_witness :
    isAuthorized c6Req envT.BOTNET_ADMIN_TOKEN = false ∧
    workerFetch c6Req envT originOk 9 s0 = (.ok ⟨401, .err "unauthorized"⟩, s0) :=
  ⟨by decide,
   C6_unauthorized_admin_is_401 c6Req envT originOk 9 s0 (by decide) (by decide)
     (by decide) (by decide)⟩

/-- C10: admin dispatch is a plain string-prefix test on the path: any
request whose path extends the admin marker is handled by the admin API, and
in particular `/__botnetextra` from an address with a live block record gets
the admin 401, not a block, with the store untouched. -/
theorem C10_admin_dispatch_by_plain_string_test :
    (∀ (req : Request) (env : Env) (origin : Response) (nowMs : Nat) (s : KVState),
      jsStartsWith req.pathname (readConfig env).adminPathPrefix = true →
      workerFetch req env origin nowMs s = handleAdminRequest req env (readConfig env) nowMs s) ∧
    jsStartsWith c10Req.pathname (readConfig envT).adminPathPrefix = true ∧
    liveLookup c10S 5 (blockedKey (getClientIp c10Req)) = some (.record c1Rec) ∧
    workerFetch c10Req envT originOk 5 c10S = (.ok ⟨401, .err "unauthorized"⟩, c10S) := by
  refine ⟨?_, by decide, by decide, by decide⟩
  intro req env origin nowMs s h
  simp [workerFetch, h]

theorem C10_witness :
    workerFetch c10Req envT originOk 5 c10S =
      handleAdminRequest c10Req envT (readConfig envT) 5 c10S :=
  C10_admin_dispatch_by_plain_string_test.1 c10Req envT originOk 5 c10S (by decide)

theorem jsStartsWith_append (p q : String) : jsStartsWith (p ++ q) p = true := by
  have hd : (p ++ q).toList = p.toList ++ q.toList := by
    simp [String.toList]
  rw [jsStartsWith, hd]
  rw [List.isPrefixOf_iff_prefix]
  exact List.prefix_append _ _

theorem C8_health_missing_binding_counterexample :
    workerFetch c8Req c8Env originOk 0 s0 =
      (.ok ⟨500, .err "BOTNET_KV binding is missing"⟩, s0) ∧
    (workerFetch c8Req c8Env originOk 0 s0).1 ≠ .ok ⟨200, .health "botnet-guard"⟩ := by
  decide

/-- C8 (amended): with the store binding present, GET on the admin health
route answers 200 with the static liveness payload, with no authentication
and no store access. -/
theorem C8_health_with_binding (req : Request) (env : Env) (origin : Response)
    (nowMs : Nat) (s : KVState)
    (hKv : env.kvPresent = true)
    (hM : req.method = "GET")
    (hP : req.pathname = (readConfig env).adminPathPrefix ++ "/health") :
    workerFetch req env origin nowMs s = (.ok ⟨200, .health "botnet-guard"⟩, s) := by
  simp [workerFetch, handleAdminRequest, hKv, hM, hP, jsStartsWith_append]

theorem C8_witness :
    workerFetch c8Req envT originOk 0 s0 = (.ok ⟨200, .health "botnet-guard"⟩, s0) :=
  C8_health_with_binding c8Req envT originOk 0 s0 rfl rfl (by decide)

theorem removeKey_pair_idem (l : List (String × KVEntry)) (a b : String) :
    removeKey (removeKey (removeKey (removeKey l a) b) a) b = removeKey (removeKey l a) b := by
  rw [removeKey_comm (removeKey l a) b a]
  simp [removeKey_removeKey_self]

theorem unblock_route_run (req : Request) (env : Env) (origin : Response) (nowMs : Nat)
    (ipRaw : String) (rf tf : Option JsVal)
    (hKv : env.kvPresent = true)
    (hM : req.method = "POST" ∨ req.method = "DELETE")
    (hP : req.pathname = (readConfig env).adminPathPrefix ++ "/unblock")
    (hAuth : isAuthorized req env.BOTNET_ADMIN_TOKEN = true)
    (hBody : req.body = .parsed (.obj (some (.str ipRaw)) rf tf))
    (hValid : isValidIp (jsTrim ipRaw) = true)
    (t : KVState) (hFault : t.failAt = []) :
    workerFetch req env origin nowMs t =
      (.ok ⟨200, .unblocked (jsTrim ipRaw)⟩,
       { t with opCount := t.opCount + 2,
                entries := removeKey (removeKey t.entries (blockedKey (jsTrim ipRaw)))
                  (botScoreKey (jsTrim ipRaw)) }) := by
  have hMG : ¬ req.method = "GET" := by
    rcases hM with h | h <;> rw [h] <;> decide
  have hne1 : ¬((readConfig env).adminPathPrefix ++ "/unblock" =
      (readConfig env).adminPathPrefix ++ "/health") :=
    fun h => absurd (strAppend_right_inj h) (by decide)
  have hne2 : ¬((readConfig env).adminPathPrefix ++ "/unblock" =
      (readConfig env).adminPathPrefix ++ "/status") :=
    fun h => absurd (strAppend_right_inj h) (by decide)
  have hne3 : ¬((readConfig env).adminPathPrefix ++ "/unblock" =
      (readConfig env).adminPathPrefix ++ "/block") :=
    fun h => absurd (strAppend_right_inj h) (by decide)
  have ht2 : ({ t with opCount := t.opCount + 1, entries := removeKey t.entries (blockedKey (jsTrim ipRaw)) } : KVState).failAt = [] :=
    hFault
  simp [workerFetch, hP, jsStartsWith_append, handleAdminRequest, hKv, hMG, hne1, hne2,
    hne3, hM, hAuth, hBody, readJsonBody, bodyIpField, hValid, kvDelete_noFault hFault,
    kvDelete_noFault ht2]

/-- C7: an authenticated POST or DELETE unblock with a valid address deletes
both the block record and the bot score, answers 200 `{ok, blocked:false,
ip}` even when neither entry existed, and repeating the call returns the
same response and leaves the same store contents. -/
theorem C7_unblock_deletes_both_and_is_idempotent (req : Request) (env : Env)
    (origin : Response) (nowMs : Nat) (s : KVState) (ipRaw : String) (rf tf : Option JsVal)
    (hKv : env.kvPresent = true)
    (hM : req.method = "POST" ∨ req.method = "DELETE")
    (hP : req.pathname = (readConfig env).adminPathPrefix ++ "/unblock")
    (hAuth : isAuthorized req env.BOTNET_ADMIN_TOKEN = true)
    (hBody : req.body = .parsed (.obj (some (.str ipRaw)) rf tf))
    (hValid : isValidIp (jsTrim ipRaw) = true)
    (hFault : s.failAt = []) :
    (workerFetch req env origin nowMs s).1 = .ok ⟨200, .unblocked (jsTrim ipRaw)⟩ ∧
    (workerFetch req env origin nowMs s).2.entries =
      removeKey (removeKey s.entries (blockedKey (jsTrim ipRaw))) (botScoreKey (jsTrim ipRaw)) ∧
    findEntry (workerFetch req env origin nowMs s).2.entries (blockedKey (jsTrim ipRaw)) = none ∧
    findEntry (workerFetch req env origin nowMs s).2.entries (botScoreKey (jsTrim ipRaw)) = none ∧
    (workerFetch req env origin nowMs (workerFetch req env origin nowMs s).2).1 =
      (workerFetch req env origin nowMs s).1 ∧
    (workerFetch req env origin nowMs (workerFetch req env origin nowMs s).2).2.entries =
      (workerFetch req env origin nowMs s).2.entries := by
  have h1 := unblock_route_run req env origin nowMs ipRaw rf tf hKv hM hP hAuth hBody hValid
    s hFault
  have hF1 : ((workerFetch req env origin nowMs s).2).failAt = [] := by
    rw [h1]; exact hFault
  have h2 := unblock_route_run req env origin nowMs ipRaw rf tf hKv hM hP hAuth hBody hValid
    (workerFetch req env origin nowMs s).2 hF1
  have hbk : blockedKey (jsTrim ipRaw) ≠ botScoreKey (jsTrim ipRaw) :=
    blockedKey_ne_botScoreKey _ _
  refine ⟨by rw [h1], by rw [h1], ?_, ?_, ?_, ?_⟩
  · rw [h1]
    rw [findEntry_removeKey_ne _ hbk, findEntry_removeKey_self]
  · rw [h1]
    rw [findEntry_removeKey_self]
  · rw [h2, h1]
  · rw [h2, h1]
    exact removeKey_pair_idem s.entries (blockedKey (jsTrim ipRaw)) (botScoreKey (jsTrim ipRaw))

theorem C9_block_malformed_counterexample :
    (workerFetch c9ReqMalformed envT originOk 0 s0).1 = .ok ⟨400, .err "invalid json body"⟩ ∧
    (workerFetch c9ReqNoIp envT originOk 0 s0).1 = .ok ⟨400, .err "valid ip is required"⟩ ∧
    (workerFetch c9ReqMalformed envT originOk 0 s0).1 ≠
      (workerFetch c9ReqNoIp envT originOk 0 s0).1 := by
  decide

/-- C9 (amended): on the write routes a malformed body is treated exactly
like an absent body and mutates nothing; the shared 400 response is the
missing-ip validation error on unblock, but the distinct invalid-json
message on block. -/
theorem C9_malformed_body_acts_as_absent (req : Request) (env : Env) (origin : Response)
    (nowMs : Nat) (s : KVState)
    (hKv : env.kvPresent = true)
    (hAuth : isAuthorized req env.BOTNET_ADMIN_TOKEN = true)
    (hRoute : (req.method = "POST" ∧
        req.pathname = (readConfig env).adminPathPrefix ++ "/block") ∨
      ((req.method = "POST" ∨ req.method = "DELETE") ∧
        req.pathname = (readConfig env).adminPathPrefix ++ "/unblock"))
    (hMal : req.body = .malformed) :
    workerFetch req env origin nowMs s =
      workerFetch { req with body := .absent } env origin nowMs s ∧
    workerFetch req env origin nowMs s =
      (.ok ⟨400, .err (if req.pathname = (readConfig env).adminPathPrefix ++ "/block"
        then "invalid json body" else "valid ip is required")⟩, s) := by
  rcases hRoute with ⟨hMp, hPb⟩ | ⟨hM2, hPu⟩
  · have hGen : ∀ r : Request, r.method = "POST" →
        r.pathname = (readConfig env).adminPathPrefix ++ "/block" →
        isAuthorized r env.BOTNET_ADMIN_TOKEN = true →
        readJsonBody r.body = none →
        workerFetch r env origin nowMs s = (.ok ⟨400, .err "invalid json body"⟩, s) := by
      intro r hm hp ha hb
      have hg : ¬ r.method = "GET" := by rw [hm]; decide
      simp [workerFetch, hp, jsStartsWith_append, handleAdminRequest, hKv, hg, hm, ha, hb]
    have h1 := hGen req hMp hPb hAuth (by simp [hMal, readJsonBody])
    have h2 := hGen { req with body := RawBody.absent } hMp hPb hAuth rfl
    exact ⟨h1.trans h2.symm, by rw [h1]; simp [hPb]⟩
  · have hne3 : ¬((readConfig env).adminPathPrefix ++ "/unblock" =
        (readConfig env).adminPathPrefix ++ "/block") :=
      fun h => absurd (strAppend_right_inj h) (by decide)
    have hGen : ∀ r : Request, (r.method = "POST" ∨ r.method = "DELETE") →
        r.pathname = (readConfig env).adminPathPrefix ++ "/unblock" →
        isAuthorized r env.BOTNET_ADMIN_TOKEN = true →
        readJsonBody r.body = none →
        workerFetch r env origin nowMs s = (.ok ⟨400, .err "valid ip is required"⟩, s) := by
      intro r hm hp ha hb
      have hg : ¬ r.method = "GET" := by
        rcases hm with h | h <;> rw [h] <;> decide
      have hIv : isValidIp "" = false := by decide
      simp [workerFetch, hp, jsStartsWith_append, handleAdminRequest, hKv, hg, hm, hne3,
        ha, hb, bodyIpField, hIv]
    have h1 := hGen req hM2 hPu hAuth (by simp [hMal, readJsonBody])
    have h2 := hGen { req with body := RawBody.absent } hM2 hPu hAuth rfl
    refine ⟨h1.trans h2.symm, ?_⟩
    rw [h1]
    simp [hPu, hne3]

theorem C9_witness :
    workerFetch c9ReqMalformed envT originOk 0 s0 =
      workerFetch { c9ReqMalformed with body := .absent } envT originOk 0 s0 :=
  (C9_malformed_body_acts_as_absent c9ReqMalformed envT originOk 0 s0 rfl (by decide)
    (Or.inl ⟨rfl, by decide⟩) rfl).1

theorem parsePositiveInteger_pos (v : Option String) {fb : Nat} (h : 1 ≤ fb) :
    1 ≤ parsePositiveInteger v fb := by
  cases v with
  | none => simpa [parsePositiveInteger] using h
  | some x =>
    cases hp : parseIntBase10 x with
    | none => simpa [parsePositiveInteger, hp] using h
    | some n =>
      by_cases hn : n ≤ 0
      · simpa [parsePositiveInteger, hp, hn] using h
      · simp [parsePositiveInteger, hp, hn]
        omega

theorem readConfig_blockTtl_pos (env : Env) : 1 ≤ (readConfig env).blockTtlSeconds :=
  parsePositiveInteger_pos _ (by decide)

theorem no_live_entry_at {s : KVState} {nowMs : Nat} {key : String}
    (hNo : liveLookup s nowMs key = none) {ttl : Nat} (httl : 1 ≤ ttl) (e : KVValue) :
    findEntry s.entries key ≠ some ⟨e, some (nowMs + ttl * 1000)⟩ := by
  intro hfe
  have hcond : ¬ nowMs ≥ nowMs + ttl * 1000 := by omega
  simp only [liveLookup, hfe] at hNo
  rw [if_neg hcond] at hNo
  exact Option.noConfusion hNo

theorem inspectProtected_window_blocks (req : Request) (cfg : Config) (nowMs : Nat)
    (ip : String) (t : KVState) (hFault : t.failAt = [])
    (hInspect : shouldInspectPath req.pathname cfg.protectedPathPrefixes = true)
    (hgt : postIncCount t nowMs (counterKey ip "window" (nowMs / 1000 / cfg.rateWindowSeconds)) >
      (cfg.rateMaxRequests : Int)) :
    ∃ st : KVState,
      inspectProtected req cfg nowMs ip t =
        (.ok (some (blockedResponse ip (.record (windowBlockRecord req cfg nowMs
          (postIncCount t nowMs
            (counterKey ip "window" (nowMs / 1000 / cfg.rateWindowSeconds))))))), st) ∧
      findEntry st.entries (blockedKey ip) =
        some ⟨.record (windowBlockRecord req cfg nowMs
            (postIncCount t nowMs (counterKey ip "window" (nowMs / 1000 / cfg.rateWindowSeconds)))),
          some (nowMs + cfg.blockTtlSeconds * 1000)⟩ := by
  have h1 : ({ t with opCount := t.opCount + 2, entries := putEntry t.entries (counterKey ip "window" (nowMs / 1000 / cfg.rateWindowSeconds)) ⟨.count (postIncCount t nowMs (counterKey ip "window" (nowMs / 1000 / cfg.rateWindowSeconds))), some (nowMs + (cfg.rateWindowSeconds + 5) * 1000)⟩ } : KVState).failAt = [] := hFault
  simp only [inspectProtected, hInspect, if_true, incrementCounter_noFault hFault, hgt,
    blockIp, kvPut_noFault h1]
  exact ⟨_, rfl, findEntry_putEntry_self _ _ _⟩

theorem inspectProtected_window_under (req : Request) (cfg : Config) (nowMs : Nat)
    (ip : String) (t : KVState) (hFault : t.failAt = [])
    (hInspect : shouldInspectPath req.pathname cfg.protectedPathPrefixes = true)
    (hle : ¬ (postIncCount t nowMs (counterKey ip "window" (nowMs / 1000 / cfg.rateWindowSeconds)) >
      (cfg.rateMaxRequests : Int))) :
    ∃ (res : Except Unit (Option Response)) (st : KVState),
      inspectProtected req cfg nowMs ip t = (res, st) ∧
      (findEntry st.entries (blockedKey ip) = findEntry t.entries (blockedKey ip) ∨
       ∃ rec : BlockRecord,
         findEntry st.entries (blockedKey ip) =
           some ⟨.record rec, some (nowMs + cfg.blockTtlSeconds * 1000)⟩ ∧
         rec.reason ≠ "rate_limit_window") := by
  simp only [inspectProtected, hInspect, if_true, incrementCounter_noFault, hFault, hle,
    if_false, blockIp]
  split
  · simp only [kvPut_noFault, hFault]
    refine ⟨_, _, rfl, Or.inr ⟨_, findEntry_putEntry_self _ _ _, ?_⟩⟩
    simp
  · simp only [maybeScoreBotSignals_noFault, hFault]
    by_cases hd : claimedDelta req cfg = 0
    · rw [if_pos hd]
      refine ⟨_, _, rfl, Or.inl ?_⟩
      rw [findEntry_putEntry_ne _ (blockedKey_ne_counterKey _ _ _ _),
        findEntry_putEntry_ne _ (blockedKey_ne_counterKey _ _ _ _)]
    · rw [if_neg hd]
      split
      · rename_i x e s3 heq
        exfalso
        rw [Prod.mk.injEq] at heq
        rcases heq with ⟨h1, -⟩
        split at h1 <;> simp at h1
      · rename_i x s3 heq
        rw [Prod.mk.injEq] at heq
        rcases heq with ⟨-, h2⟩
        subst h2
        refine ⟨_, _, rfl, Or.inl ?_⟩
        rw [findEntry_putEntry_ne _ (blockedKey_ne_botScoreKey _ _),
          findEntry_putEntry_ne _ (blockedKey_ne_counterKey _ _ _ _),
          findEntry_putEntry_ne _ (blockedKey_ne_counterKey _ _ _ _)]
      · rename_i x rec s3 heq
        rw [Prod.mk.injEq] at heq
        rcases heq with ⟨h1, h2⟩
        subst h2
        have hreason : rec.reason = "bot_signature" := by
          split at h1
          · simp at h1
          · simp only [Except.ok.injEq, ScoreOutcome.block.injEq] at h1
            rw [← h1]
            simp [botBlockRecord]
        simp only [blockIp, kvPut_noFault, hFault]
        refine ⟨_, _, rfl, Or.inr ⟨rec, findEntry_putEntry_self _ _ _, ?_⟩⟩
        rw [hreason]
        decide

/-- C2: a `rate_limit_window` record with TTL `blockTtlSeconds` is written
exactly when the post-increment window count strictly exceeds
`rateMaxRequests`; with `rateMaxRequests = 2` in one window the first two
requests pass through and the third gets 403 with reason
`rate_limit_window`. -/
theorem C2_window_rate_limit :
    (∀ (env : Env) (req : Request) (origin : Response) (nowMs : Nat) (s : KVState),
      jsStartsWith req.pathname (readConfig env).adminPathPrefix = false →
      env.kvPresent = true →
      isValidIp (getClientIp req) = true →
      getClientIp req ∉ (readConfig env).allowlistIps →
      s.failAt = [] →
      liveLookup s nowMs (blockedKey (getClientIp req)) = none →
      shouldInspectPath req.pathname (readConfig env).protectedPathPrefixes = true →
      ((∃ rec : BlockRecord,
          findEntry (workerFetch req env origin nowMs s).2.entries
              (blockedKey (getClientIp req)) =
            some ⟨.record rec, some (nowMs + (readConfig env).blockTtlSeconds * 1000)⟩ ∧
          rec.reason = "rate_limit_window") ↔
        postIncCount s nowMs (counterKey (getClientIp req) "window"
            (nowMs / 1000 / (readConfig env).rateWindowSeconds)) >
          ((readConfig env).rateMaxRequests : Int))) ∧
    ((workerFetch c2Req c2Env originOk 0 s0).1 = .ok originOk ∧
     (workerFetch c2Req c2Env originOk 0 (workerFetch c2Req c2Env originOk 0 s0).2).1 =
       .ok originOk ∧
     originOk.status = 200 ∧
     (workerFetch c2Req c2Env originOk 0
         (workerFetch c2Req c2Env originOk 0
           (workerFetch c2Req c2Env originOk 0 s0).2).2).1 =
       .ok ⟨403, .blocked "1.2.3.4" (.record
         { reason := "rate_limit_window", blockedAt := 0, windowSeconds := some 60,
           maxRequests := some 2, observedCount := some 3, path := some "/api/login" })⟩) := by
  constructor
  · intro env req origin nowMs s hAdmin hKv hValid hAllow hFault hNoBlock hInspect
    have hW := workerFetch_engine origin nowMs s hAdmin hKv hValid hAllow
    have hG := getBlockedIpRecord_noFault hFault nowMs (getClientIp req)
    rw [hNoBlock] at hG
    simp only [Option.map_none'] at hG
    have hIT : inspectTry req (readConfig env) nowMs (getClientIp req) s =
        inspectProtected req (readConfig env) nowMs (getClientIp req) (tick s) := by
      simp only [inspectTry, hG]
    have hFt : (tick s).failAt = [] := hFault
    have hpi : postIncCount (tick s) nowMs (counterKey (getClientIp req) "window"
          (nowMs / 1000 / (readConfig env).rateWindowSeconds)) =
        postIncCount s nowMs (counterKey (getClientIp req) "window"
          (nowMs / 1000 / (readConfig env).rateWindowSeconds)) := rfl
    by_cases hgt : postIncCount s nowMs (counterKey (getClientIp req) "window"
          (nowMs / 1000 / (readConfig env).rateWindowSeconds)) >
        ((readConfig env).rateMaxRequests : Int)
    · obtain ⟨st, hrun, hfe⟩ := inspectProtected_window_blocks req (readConfig env) nowMs
        (getClientIp req) (tick s) hFt hInspect (by rw [hpi]; exact hgt)
      rw [hIT, hrun] at hW
      have hWf : workerFetch req env origin nowMs s =
          (.ok (blockedResponse (getClientIp req) (.record (windowBlockRecord req
            (readConfig env) nowMs (postIncCount (tick s) nowMs
              (counterKey (getClientIp req) "window"
                (nowMs / 1000 / (readConfig env).rateWindowSeconds)))))), st) := hW
      refine iff_of_true ⟨windowBlockRecord req (readConfig env) nowMs
        (postIncCount (tick s) nowMs (counterKey (getClientIp req) "window"
          (nowMs / 1000 / (readConfig env).rateWindowSeconds))), ?_, rfl⟩ hgt
      rw [hWf]
      exact hfe
    · obtain ⟨res, st, hrun, hdisj⟩ := inspectProtected_window_under req (readConfig env)
        nowMs (getClientIp req) (tick s) hFt hInspect (by rw [hpi]; exact hgt)
      rw [hIT, hrun] at hW
      have hsnd : (workerFetch req env origin nowMs s).2 = st := by
        rw [hW]
        rcases res with e | o
        · rfl
        · rcases o with _ | r <;> rfl
      refine iff_of_false ?_ hgt
      rintro ⟨rec, hfe, hreason⟩
      rw [hsnd] at hfe
      rcases hdisj with hsame | ⟨rec', hfe', hne⟩
      · rw [hsame] at hfe
        exact no_live_entry_at hNoBlock (readConfig_blockTtl_pos env) (.record rec) hfe
      · have hrr := hfe'.symm.trans hfe
        simp only [Option.some.injEq, KVEntry.mk.injEq, KVValue.record.injEq] at hrr
        exact hne (hrr.1 ▸ hreason)
  · refine ⟨by decide, by decide, rfl, by decide⟩

theorem C2_witness :
    ∃ rec : BlockRecord,
      findEntry (workerFetch c2Req c2Env originOk 0 c2WitS).2.entries
          (blockedKey (getClientIp c2Req)) =
        some ⟨.record rec, some (0 + (readConfig c2Env).blockTtlSeconds * 1000)⟩ ∧
      rec.reason = "rate_limit_window" :=
  (C2_window_rate_limit.1 c2Env c2Req originOk 0 c2WitS (by decide) (by decide) (by decide)
    (by decide) rfl (by decide) (by decide)).mpr (by decide)

/-- C4: the bot scorer's delta is the path signal plus exactly one of the two
mutually exclusive user-agent signals; a zero delta touches nothing and does
not block, otherwise the score is bumped by the delta with the TTL reset and
the outcome is a block — carrying score, threshold, delta, signals and path —
precisely when the new total reaches the threshold. -/
theorem C4_bot_scorer_delta_and_threshold (req : Request) (s : KVState) (nowMs : Nat)
    (ip : String) (config : Config) (hFault : s.failAt = []) :
    (claimedUaMissing req = true → claimedUaBad req config = false) ∧
    (claimedDelta req config = 0 →
      maybeScoreBotSignals req s nowMs ip config = (.ok .noBlock, s)) ∧
    (claimedDelta req config ≠ 0 →
      maybeScoreBotSignals req s nowMs ip config =
        ((if scoreBase s nowMs ip + claimedDelta req config <
              (config.botScoreBlockThreshold : Int)
          then .ok .noBlock
          else .ok (.block (botBlockRecord req s nowMs ip config))),
         { s with opCount := s.opCount + 2,
                  entries := putEntry s.entries (botScoreKey ip)
                    ⟨.count (scoreBase s nowMs ip + claimedDelta req config),
                     some (nowMs + config.botScoreTtlSeconds * 1000)⟩ })) := by
  have h := maybeScoreBotSignals_noFault hFault req nowMs ip config
  refine ⟨?_, ?_, ?_⟩
  · intro hm
    simp [claimedUaBad, hm]
  · intro hz
    rw [h, if_pos hz]
  · intro hz
    rw [h, if_neg hz]

theorem C4_witness :
    claimedDelta c4Req (readConfig c4Env) ≠ 0 ∧
    maybeScoreBotSignals c4Req s0 0 "9.9.9.9" (readConfig c4Env) =
      ((if scoreBase s0 0 "9.9.9.9" + claimedDelta c4Req (readConfig c4Env) <
            ((readConfig c4Env).botScoreBlockThreshold : Int)
        then .ok .noBlock
        else .ok (.block (botBlockRecord c4Req s0 0 "9.9.9.9" (readConfig c4Env)))),
       { s0 with opCount := s0.opCount + 2,
                 entries := putEntry s0.entries (botScoreKey "9.9.9.9")
                   ⟨.count (scoreBase s0 0 "9.9.9.9" + claimedDelta c4Req (readConfig c4Env)),
                    some (0 + (readConfig c4Env).botScoreTtlSeconds * 1000)⟩ }) :=
  ⟨by decide,
   (C4_bot_scorer_delta_and_threshold c4Req s0 0 "9.9.9.9" (readConfig c4Env) rfl).2.2
     (by decide)⟩

theorem C7_witness :
    (workerFetch c7Req envT originOk 10 c7S).1 = .ok ⟨200, .unblocked (jsTrim "8.8.8.8")⟩ ∧
    findEntry (workerFetch c7Req envT originOk 10 c7S).2.entries
      (blockedKey (jsTrim "8.8.8.8")) = none ∧
    findEntry (workerFetch c7Req envT originOk 10 c7S).2.entries
      (botScoreKey (jsTrim "8.8.8.8")) = none := by
  have h := C7_unblock_deletes_both_and_is_idempotent c7Req envT originOk 10 c7S "8.8.8.8"
    none none rfl (Or.inl rfl) (by decide) (by decide) rfl (by decide) rfl
  exact ⟨h.1, h.2.2.1, h.2.2.2.1⟩
